import Mathlib

/-!
Verification of the Aye-Aye Chef client and database layer.

This file shallowly embeds the JavaScript client logic
(`mobile-app/src/utils/ingredientDetection.js`,
`mobile-app/src/screens/ConfirmScreen.js` including the bundled
RecipeScreen and api service) and the SQL schema
(`scripts/setup-database.sql`) as executable Lean definitions, and proves
the specification claims about them.

Numbers stored in JS values (grams, confidence) are modelled as exact
rationals; JS `undefined`/`null` fields are modelled as `Option`; a JS
computation that throws is modelled as an `Option`-returning function.
-/

namespace AyeAye

/-! ## JavaScript string / number primitives used by the client code -/

/-- ASCII lowering of one character, as `String.prototype.toLowerCase`
acts on the ASCII labels this app handles. -/
def jsCharToLower (c : Char) : Char :=
  if 65 ≤ c.toNat ∧ c.toNat ≤ 90 then Char.ofNat (c.toNat + 32) else c

/-- `s.toLowerCase()` on ASCII strings. -/
def jsToLower (s : String) : String := String.mk (s.data.map jsCharToLower)

/-- `s.includes(sub)`: substring containment, true when `sub` is empty. -/
def jsIncludes (s sub : String) : Bool := decide (sub.toList <:+: s.toList)

/-- `s.startsWith(pre)`. -/
def jsStartsWith (s pre : String) : Bool := decide (pre.toList <+: s.toList)

/-- `a || d` for an optional string `a` (absent and empty are falsy). -/
def jsStrOr (a : Option String) (d : String) : String :=
  match a with
  | none => d
  | some s => if s = "" then d else s

/-- JS falsiness of an optional number (absent, `null` and `0` are falsy). -/
def numFalsy (a : Option ℚ) : Bool :=
  match a with
  | none => true
  | some x => decide (x = 0)

/-- `a || b` for optional numbers, keeping the result optional. -/
def jsNumOr (a b : Option ℚ) : Option ℚ := if numFalsy a then b else a

/-- `a || d` for an optional number with a concrete default. -/
def jsNumOrD (a : Option ℚ) (d : ℚ) : ℚ :=
  match a with
  | none => d
  | some x => if x = 0 then d else x

/-- `a || b || d`: three-way JS fallback chain over numbers. -/
def jsNum3 (a b : Option ℚ) (d : ℚ) : ℚ :=
  match a with
  | none => jsNumOrD b d
  | some x => if x = 0 then jsNumOrD b d else x

/-! ## Ingredient objects

Scan items flow through the client as JS objects whose fields may be
absent; `confirmed` and `manually_added` are used as booleans (absent
behaves as `false`). -/

structure ScanItem where
  label : Option String
  fdc_id : Option String
  confidence : Option ℚ
  grams : Option ℚ
  grams_est : Option ℚ
  confirmed : Bool
  manually_added : Bool
deriving Repr, DecidableEq

/-! ## `utils/ingredientDetection.js` -/

/-- `COMMON_FRUITS` from `ingredientDetection.js`. -/
def COMMON_FRUITS : List String :=
  ["orange", "lemon", "lime", "grapefruit", "tangerine", "mandarin",
   "strawberry", "blueberry", "raspberry", "blackberry", "cranberry", "cherry",
   "banana", "pineapple", "mango", "papaya", "coconut", "kiwi", "passion fruit",
   "peach", "plum", "apricot", "nectarine",
   "apple", "pear",
   "watermelon", "cantaloupe", "honeydew", "melon",
   "grape", "fig", "date", "pomegranate", "avocado",
   "dragon fruit", "star fruit", "lychee", "rambutan", "durian"]

/-- `SMOOTHIE_VEGETABLES` from `ingredientDetection.js`. -/
def SMOOTHIE_VEGETABLES : List String :=
  ["spinach", "kale", "carrot", "beet", "cucumber", "celery"]

/-- `ingredient.label?.toLowerCase() || ""` (the empty string when the label is absent). -/
def effLabel (i : ScanItem) : String := jsStrOr (i.label.map jsToLower) ""

/-- The per-ingredient fruit test:
`COMMON_FRUITS.some(fruit => label.includes(fruit) || fruit.includes(label))`. -/
def isFruitLabel (label : String) : Bool :=
  COMMON_FRUITS.any fun fruit => jsIncludes label fruit || jsIncludes fruit label

/-- The per-ingredient smoothie-vegetable test. -/
def isSmoothieVegetableLabel (label : String) : Bool :=
  SMOOTHIE_VEGETABLES.any fun veg => jsIncludes label veg || jsIncludes veg label

/-- `isFruit || isSmoothieVegetable` for one ingredient. -/
def countedAsFruit (i : ScanItem) : Bool :=
  isFruitLabel (effLabel i) || isSmoothieVegetableLabel (effLabel i)

/-- `detectFruits` from `ingredientDetection.js` on a present array.
The source compares `fruitCount / totalCount > 0.6` on JS numbers;
cross-multiplying by the positive denominator gives the exact integer
test `5 * fruitCount > 3 * totalCount`, which agrees with the IEEE
comparison for every feasible list length. -/
def detectFruits (ingredients : List ScanItem) : Bool :=
  if ingredients.length = 0 then false
  else
    let fruitCount := (ingredients.filter countedAsFruit).length
    let totalCount := ingredients.length
    decide (5 * fruitCount > 3 * totalCount)

/-- `detectFruits` including the `!ingredients` guard for a missing array. -/
def detectFruitsJS : Option (List ScanItem) → Bool
  | none => false
  | some l => detectFruits l

structure RecipeCategories where
  isFruitBased : Bool
  suggestedCategories : List String
  defaultCategory : String
deriving Repr, DecidableEq

/-- `getRecipeCategories` from `ingredientDetection.js`. -/
def getRecipeCategories (ingredients : List ScanItem) : RecipeCategories :=
  if detectFruits ingredients then
    { isFruitBased := true
      suggestedCategories := ["smoothie", "dessert"]
      defaultCategory := "smoothie" }
  else
    { isFruitBased := false
      suggestedCategories := ["italian", "thai", "mexican", "indian", "mediterranean"]
      defaultCategory := "italian" }

/-- `suggestMealType` from `ingredientDetection.js`; `hour` is
`currentTime.getHours()`.  The source computes `detectFruits` into a
local that the returned value never reads. -/
def suggestMealType (ingredients : List ScanItem) (hour : ℕ) : String :=
  let _isFruitBased := detectFruits ingredients
  if 6 ≤ hour ∧ hour < 11 then "breakfast"
  else if 11 ≤ hour ∧ hour < 16 then "lunch"
  else if 16 ≤ hour ∧ hour < 21 then "dinner"
  else "snack"

/-! ## Recipe-type choices shown by the UI -/

/-- The recipe-type chips rendered by `ConfirmScreen`
(Smoothie/Dessert when fruit was detected, the cuisine list otherwise). -/
def confirmScreenRecipeTypeOptions (isFruitDetected : Bool) : List String :=
  if isFruitDetected then ["Smoothie", "Dessert"]
  else ["Italian", "Mexican", "Asian", "Indian", "Mediterranean", "American"]

/-- The category ids offered by `RecipeCategorySelector`. -/
def recipeCategorySelectorIds (isFruitDetected : Bool) : List String :=
  if isFruitDetected then ["smoothie", "dessert"]
  else ["italian", "thai", "mexican", "indian", "mediterranean"]

/-! ## `ConfirmScreen.loadScanResults` -/

/-- The mock item substituted for `mock_` / `manual_` / `test_` scan ids. -/
def mockScanItem : ScanItem :=
  { label := some "unknown food", fdc_id := some "", confidence := some 0.5,
    grams := none, grams_est := some 100, confirmed := true, manually_added := false }

/-- The generic fallback item
with label "unknown food item", empty fdc id, confidence 0.5,
grams_est 100 and confirmed set. -/
def fallbackScanItem : ScanItem :=
  { label := some "unknown food item", fdc_id := some "", confidence := some 0.5,
    grams := none, grams_est := some 100, confirmed := true, manually_added := false }

/-- One step of the normalization map applied to detected items:
grams fields are defaulted, `manually_added` cleared, and only the first
item (index 0) auto-confirmed. -/
def normalizeItem (i : ScanItem) (idx : ℕ) : ScanItem :=
  { i with grams := some (jsNum3 i.grams i.grams_est 100)
           grams_est := some (jsNum3 i.grams_est i.grams 100)
           manually_added := false
           confirmed := idx == 0 }

/-- `items.map((item, index) => ...)` with the running index. -/
def normalizeItemsFrom : List ScanItem → ℕ → List ScanItem
  | [], _ => []
  | i :: rest, idx => normalizeItem i idx :: normalizeItemsFrom rest (idx + 1)

def normalizeItems (l : List ScanItem) : List ScanItem := normalizeItemsFrom l 0

/-- The envelope returned by `apiService.getScan`: the api service yields
either `{success: true, data}` or `{success: false, error}`; `items` is
the (possibly absent, hence possibly empty) `data.items` array and
`status` the `data.status` field. -/
structure ScanApiResult where
  success : Bool
  items : List ScanItem
  status : Option String
  error : Option String
deriving Repr, DecidableEq

/-- What one run of `loadScanResults` does: either it finishes, leaving
the screen with `items`, optionally raising an alert, and with the
resulting `isFruitDetected` state, or it schedules itself again via
`setTimeout(loadScanResults, delayMs)`. -/
inductive LoadOutcome where
  | finish (items : List ScanItem) (alert : Option (String × String)) (fruitDetected : Bool)
  | retry (delayMs : ℕ)
deriving Repr, DecidableEq

def LoadOutcome.alertOf : LoadOutcome → Option (String × String)
  | .finish _ a _ => a
  | .retry _ => none

def LoadOutcome.itemsOf : LoadOutcome → Option (List ScanItem)
  | .finish its _ _ => some its
  | .retry _ => none

def LoadOutcome.isRetry : LoadOutcome → Bool
  | .finish _ _ _ => false
  | .retry _ => true

/-- The scan id carries one of the mock-, manual- or test- markers
(`scanId.startsWith` on each of the three). -/
def isMockScanId (scanId : String) : Bool :=
  jsStartsWith scanId "mock_" || jsStartsWith scanId "manual_" || jsStartsWith scanId "test_"

/-- `loadScanResults` from `ConfirmScreen.js`, as a function of the scan
id, the `getScan` response and the `detectedItems` route param. -/
def loadScanResults (scanId : String) (result : ScanApiResult)
    (detectedItems : List ScanItem) : LoadOutcome :=
  if isMockScanId scanId then
    .finish [mockScanItem] none false
  else if result.success then
    if result.items.length > 0 then
      let itemsWithFirstConfirmed := normalizeItems result.items
      .finish itemsWithFirstConfirmed none (detectFruits itemsWithFirstConfirmed)
    else if result.status = some "processing" then
      .retry 2000
    else
      .finish [fallbackScanItem] none false
  else
    if detectedItems.length > 0 then
      .finish (normalizeItems detectedItems) none false
    else
      .finish [fallbackScanItem]
        (some ("Detection Failed",
          "Real AI detection failed: " ++ jsStrOr result.error "Unknown error" ++
          "\n\nUsing fallback detection for now.")) false

/-! ## `ConfirmScreen` state, item editing and `handleConfirm` -/

/-- The item built by `addNewIngredient` for a non-empty trimmed name;
`gramsInput` is the `parseFloat` of the grams text (`none` for NaN). -/
def addNewIngredientItem (name : String) (gramsInput : Option ℚ) (now : ℕ) : ScanItem :=
  { label := some name, fdc_id := some ("manual_" ++ toString now),
    confidence := some 1, grams := some (jsNumOrD gramsInput 100),
    grams_est := none, confirmed := true, manually_added := true }

/-- `updateItemGrams`: writes `parseFloat(text) || 0` into both grams
fields of the item at `index`. -/
def updateItemGrams : List ScanItem → ℕ → Option ℚ → List ScanItem
  | [], _, _ => []
  | i :: rest, 0, parsed =>
      { i with grams := some (jsNumOrD parsed 0)
               grams_est := some (jsNumOrD parsed 0) } :: rest
  | i :: rest, n + 1, parsed => i :: updateItemGrams rest n parsed

/-- One entry of `confirmationData.items`. -/
structure ConfirmPayloadItem where
  fdc_id : Option String
  label : Option String
  grams : Option ℚ
  confirmed : Bool
  manually_added : Bool
deriving Repr, DecidableEq

/-- `confirmedItems.map(item => ({ fdc_id, label, grams: item.grams || item.grams_est, confirmed: true, manually_added: item.manually_added || false }))`. -/
def confirmationItems (items : List ScanItem) : List ConfirmPayloadItem :=
  (items.filter fun i => i.confirmed).map fun i =>
    { fdc_id := i.fdc_id, label := i.label, grams := jsNumOr i.grams i.grams_est,
      confirmed := true, manually_added := i.manually_added }

/-- An item carries a usable gram amount for the confirm payload. -/
def itemHasGramsValue (i : ScanItem) : Bool := (jsNumOr i.grams i.grams_est).isSome

structure ConfirmPrefs where
  diets : List String
  cuisines : List String
  allergens : List String
  servings : ℕ
deriving Repr, DecidableEq

structure NavPrefs where
  diets : List String
  cuisines : List String
  allergens : List String
  mealType : String
  recipeType : String
  cookingLevel : String
  isFruitDetected : Bool
deriving Repr, DecidableEq

/-- The params passed when navigating to the Recipe screen. -/
structure NavParams where
  scanId : String
  confirmedItems : List ScanItem
  servings : ℕ
  preferences : NavPrefs
deriving Repr, DecidableEq

/-- The `ConfirmScreen` component state touched by `handleConfirm`. -/
structure ConfirmScreenState where
  loading : Bool
  items : List ScanItem
  servings : ℕ
  selectedDiets : List String
  selectedAllergens : List String
  selectedMealType : String
  selectedRecipeType : String
  selectedCookingLevel : String
  isFruitDetected : Bool
deriving Repr, DecidableEq

/-- The observable effects of one `handleConfirm` run: the alert shown,
the confirm-scan API call issued, the navigation performed, and the
component state afterwards. -/
structure ConfirmEffects where
  alert : Option (String × String)
  apiConfirmCall : Option (List ConfirmPayloadItem × ConfirmPrefs)
  navigateToRecipe : Option NavParams
  finalState : ConfirmScreenState
deriving Repr, DecidableEq

/-- `handleConfirm` from `ConfirmScreen.js`.  `_confirmOk` is the success
flag of the confirm-scan response; the code continues to navigation
whether or not it succeeded. -/
def handleConfirm (scanId : String) (s : ConfirmScreenState) (_confirmOk : Bool) :
    ConfirmEffects :=
  let confirmedItems := s.items.filter fun i => i.confirmed
  if confirmedItems.length = 0 then
    { alert := some ("Error", "Please confirm at least one ingredient")
      apiConfirmCall := none
      navigateToRecipe := none
      finalState := s }
  else
    let cuisines := if s.isFruitDetected then [] else [s.selectedRecipeType]
    { alert := none
      apiConfirmCall := some (confirmationItems s.items,
        { diets := s.selectedDiets, cuisines := cuisines,
          allergens := s.selectedAllergens, servings := s.servings })
      navigateToRecipe := some
        { scanId := scanId, confirmedItems := confirmedItems, servings := s.servings,
          preferences :=
            { diets := s.selectedDiets, cuisines := cuisines,
              allergens := s.selectedAllergens, mealType := s.selectedMealType,
              recipeType := s.selectedRecipeType, cookingLevel := s.selectedCookingLevel,
              isFruitDetected := s.isFruitDetected } }
      finalState := { s with loading := false } }

/-! ## `RecipeScreen.generateRecipe` error handling -/

/-- What an action button of the recipe-generation failure alert does. -/
inductive AlertAction where
  | retryGenerate
  | useMockRecipe
  | goBack
deriving Repr, DecidableEq

structure RecipeErrorAlert where
  title : String
  actions : List AlertAction
deriving Repr, DecidableEq

/-- The `catch` block of `generateRecipe` in `RecipeScreen`: classifies
the error message and raises one of three alerts, each offering a button
that re-invokes `generateRecipe`, a button running `generateMockRecipe`,
and a back button. -/
def generateRecipeCatch (errMsg : String) : RecipeErrorAlert :=
  let isNoRecipeError := jsIncludes errMsg "Recipe generation failed" ||
    jsIncludes errMsg "AI could not generate recipes"
  let isNetworkError := jsIncludes errMsg "timeout" ||
    jsIncludes errMsg "Network" || jsIncludes errMsg "fetch"
  if isNetworkError then
    { title := "Connection Issue",
      actions := [.retryGenerate, .useMockRecipe, .goBack] }
  else if isNoRecipeError then
    { title := "No Recipes Found",
      actions := [.retryGenerate, .useMockRecipe, .goBack] }
  else
    { title := "Recipe Generation Failed",
      actions := [.retryGenerate, .useMockRecipe, .goBack] }

/-! ## Database schema (`scripts/setup-database.sql`) -/

/-- A row of the `scans` table (the columns the claims speak about). -/
structure ScanRow where
  id : ℕ
  user_id : ℕ
  s3_key : String
  status : String
deriving Repr, DecidableEq

/-- The enumeration of the `status CHECK` constraint on `scans`. -/
def scanStatusValues : List String := ["processing", "ready", "confirmed", "completed"]

/-- The `CHECK status IN` constraint over the four status strings. -/
def scansStatusCheck (status : String) : Bool := scanStatusValues.contains status

/-- The column default for `status`. -/
def scanStatusDefault : String := "processing"

/-- An `INSERT` into `scans`: the database admits the row only when the
check constraint holds, otherwise the statement fails. -/
def insertScan (table : List ScanRow) (r : ScanRow) : Option (List ScanRow) :=
  if scansStatusCheck r.status then some (table ++ [r]) else none

/-- An `UPDATE scans SET status = st WHERE id = id0`: the database
applies it only when the new row value passes the check constraint. -/
def updateScanStatus (table : List ScanRow) (id0 : ℕ) (st : String) :
    Option (List ScanRow) :=
  if scansStatusCheck st then
    some (table.map fun r => if r.id = id0 then { r with status := st } else r)
  else none

/-- The client mirror `SCAN_STATUS` from `utils/constants.js`. -/
structure ScanStatusConstants where
  PROCESSING : String
  READY : String
  CONFIRMED : String
  COMPLETED : String
deriving Repr, DecidableEq

def SCAN_STATUS : ScanStatusConstants :=
  { PROCESSING := "processing", READY := "ready",
    CONFIRMED := "confirmed", COMPLETED := "completed" }

/-- A row of the `scan_items` table (the columns the claims speak about;
`grams REAL` is nullable). -/
structure ScanItemRow where
  scan_id : ℕ
  label : String
  grams : Option ℚ
  confirmed : Bool
deriving Repr, DecidableEq

/-- `CONSTRAINT scan_items_confirmed_requires_grams CHECK (confirmed = FALSE OR grams IS NOT NULL)`. -/
def scanItemsConfirmedRequiresGrams (r : ScanItemRow) : Bool :=
  (r.confirmed = false) || r.grams.isSome

/-! ## REST surface authentication

Modelled from the spec: the serverless handlers and the API Gateway +
Cognito authorizer are not part of the repository sources here (only the
API documentation, which states that all endpoints require JWT bearer
authentication, and a test script expecting 401 without auth).  The
gateway is modelled as rejecting any request lacking a valid bearer
token with HTTP 401 before any operation runs. -/

/-- The seven operations of the REST surface. -/
inductive Endpoint where
  | presignUpload
  | startScan
  | getScan
  | confirmScan
  | createRecipe
  | getRecipe
  | logMeal
deriving Repr, DecidableEq

structure ApiRequest where
  endpoint : Endpoint
  bearerToken : Option String
deriving Repr, DecidableEq

/-- Modelled from the spec: either the request is rejected with a status
code and no operation runs, or it is forwarded to the endpoint handler. -/
inductive GatewayOutcome where
  | rejected (httpStatus : ℕ)
  | forwarded (e : Endpoint)
deriving Repr, DecidableEq

/-- Modelled from the spec: the bearer-token gate in front of every
endpoint; `validToken` is Cognito judging a presented JWT. -/
def apiGateway (validToken : String → Bool) (req : ApiRequest) : GatewayOutcome :=
  match req.bearerToken with
  | none => .rejected 401
  | some t => if validToken t then .forwarded req.endpoint else .rejected 401

/-! ## `RecipeScreen.generateMultipleMockRecipes` and its recipe templates -/

structure RecipeIngredient where
  name : Option String
  grams : ℚ
  notes : String
deriving Repr, DecidableEq

structure Recipe where
  title : String
  servings : ℕ
  estimated_time : Option String
  tags : List String
  ingredients : List RecipeIngredient
  steps : List String
  substitutions : List String
  warnings : List String
deriving Repr, DecidableEq

/-- `getIngredientNotes`: the notes dictionary with its default. -/
def getIngredientNotes (ingredient : Option String) : String :=
  match ingredient with
  | some "apple" => "washed and cored"
  | some "banana" => "ripe, peeled and sliced"
  | some "egg" => "room temperature works best"
  | some "potato" => "washed and peeled if desired"
  | some "tomato" => "ripe and fresh"
  | some "chicken" => "boneless, skinless"
  | some "onion" => "peeled and diced"
  | _ => "prepared as needed"

/-- The ingredient list every template builds:
`ingredients.map(item => ({ name: item.label, grams: item.grams_est || 100, notes: getIngredientNotes(item.label) }))`. -/
def templateIngredients (ingredients : List ScanItem) : List RecipeIngredient :=
  ingredients.map fun i =>
    { name := i.label, grams := jsNumOrD i.grams_est 100, notes := getIngredientNotes i.label }

/-- `ingredients[0]?.label || d`. -/
def firstLabelOr (ingredients : List ScanItem) (d : String) : String :=
  match ingredients with
  | [] => d
  | i :: _ => jsStrOr i.label d

def generatePalakPaneerRecipe (ingredients : List ScanItem) (servings : ℕ) : Recipe :=
  { title := "Palak Paneer (Indian Spinach Cottage Cheese Curry)"
    servings := servings
    estimated_time := some "30 minutes"
    tags := ["indian", "vegetarian", "curry", "30-min"]
    ingredients := templateIngredients ingredients
    steps :=
      ["Heat 2 tablespoons oil in a heavy-bottomed pan over medium heat",
       "Add 1 teaspoon cumin seeds and let them splutter for 30 seconds",
       "Add 1 finely chopped onion and sauté until golden brown (5-6 minutes)",
       "Add 1 tablespoon ginger-garlic paste and cook for 1 minute until fragrant",
       "Add 1 chopped tomato and cook until soft and mushy (3-4 minutes)",
       "Add the washed spinach leaves and cook until wilted (2-3 minutes)",
       "Let the mixture cool, then blend to a smooth puree with little water",
       "Return puree to the pan, add 1/2 tsp turmeric, 1 tsp coriander powder, 1/2 tsp garam masala",
       "Simmer for 5 minutes, then gently add paneer cubes",
       "Cook for 3-4 minutes without stirring too much to prevent paneer from breaking",
       "Add salt to taste and 2 tablespoons fresh cream",
       "Garnish with fresh coriander and serve hot with basmati rice or naan bread"]
    substitutions :=
      ["Vegan: Substitute paneer with firm tofu",
       "Add cashews while blending for extra creaminess",
       "Use coconut milk instead of cream for dairy-free option"]
    warnings :=
      ["Potential allergens: Dairy (paneer, cream). Use tofu for dairy-free",
       "Don\x27t overcook paneer as it becomes rubbery"] }

def generatePaneerSpinachSaladRecipe (ingredients : List ScanItem) (servings : ℕ) : Recipe :=
  { title := "Fresh Paneer Spinach Salad with Indian Spices"
    servings := servings
    estimated_time := some "15 minutes"
    tags := ["indian", "vegetarian", "fresh", "15-min", "healthy"]
    ingredients := templateIngredients ingredients
    steps :=
      ["Wash and thoroughly dry fresh spinach leaves",
       "Cut paneer into small cubes and lightly pan-fry until golden",
       "In a large bowl, combine spinach leaves with the warm paneer",
       "Prepare dressing: mix 2 tbsp olive oil, 1 tbsp lemon juice, 1/2 tsp chaat masala",
       "Add 1/4 tsp black pepper, 1/2 tsp roasted cumin powder, and salt to taste",
       "Toss the salad with dressing just before serving",
       "Garnish with pomegranate seeds and chopped mint if available",
       "Serve immediately as a light meal or side dish"]
    substitutions :=
      ["Add cherry tomatoes and cucumber for extra freshness",
       "Use hung curd instead of oil for lighter dressing",
       "Add roasted peanuts for crunch"]
    warnings :=
      ["Potential allergens: Dairy (paneer)",
       "Dress the salad just before serving to prevent wilting"] }

def generateSpinachPaneerCurryRecipe (ingredients : List ScanItem) (servings : ℕ) : Recipe :=
  { title := "Spinach Paneer Curry (Restaurant Style)"
    servings := servings
    estimated_time := some "25 minutes"
    tags := ["indian", "vegetarian", "curry", "25-min", "restaurant-style"]
    ingredients := templateIngredients ingredients
    steps :=
      ["Blanch spinach in boiling water for 2 minutes, then plunge in ice water",
       "Drain and blend spinach with 2 green chilies to smooth paste",
       "Heat 3 tablespoons ghee or oil in a pan over medium heat",
       "Add 1 bay leaf, 2 green cardamom, 1-inch cinnamon stick",
       "Add 1 sliced onion and cook until golden brown",
       "Add 1 tbsp ginger-garlic paste, cook for 1 minute",
       "Add 1/2 tsp turmeric, 1 tsp coriander powder, 1/2 tsp red chili powder",
       "Add the spinach puree and cook for 8-10 minutes on medium heat",
       "Add 1/4 cup water if needed, then add paneer cubes gently",
       "Simmer for 5 minutes, add 1/2 tsp garam masala",
       "Finish with 2 tbsp cream and fresh coriander",
       "Serve hot with rotis or steamed rice"]
    substitutions :=
      ["Use mustard greens mixed with spinach for variation",
       "Add a pinch of sugar to balance the flavors",
       "Use butter instead of ghee for richer taste"]
    warnings :=
      ["Potential allergens: Dairy (paneer, cream, ghee)",
       "Don\x27t boil the curry after adding cream"] }

def generateFreshRecipe (ingredients : List ScanItem) (servings : ℕ) (_t : String) : Recipe :=
  { title := "Fresh " ++ firstLabelOr ingredients "Ingredient" ++ " Bowl"
    servings := servings
    estimated_time := some "10 minutes"
    tags := ["fresh", "raw", "healthy", "10-min"]
    ingredients := templateIngredients ingredients
    steps :=
      ["Wash all ingredients thoroughly under cold running water",
       "Pat dry with clean paper towels or kitchen cloth",
       "Cut ingredients into bite-sized pieces using a sharp knife",
       "Arrange attractively in a serving bowl or individual plates",
       "Drizzle with fresh lemon juice or your favorite dressing",
       "Season with salt and freshly ground black pepper to taste",
       "Serve immediately while fresh and crisp"]
    substitutions :=
      ["Add toasted nuts or seeds for extra crunch and protein",
       "Use balsamic vinegar instead of lemon juice",
       "Drizzle with extra virgin olive oil for healthy fats"]
    warnings :=
      ["Wash all fresh ingredients thoroughly to remove dirt and bacteria",
       "Consume immediately for best texture and nutrition"] }

def generateCookedRecipe (ingredients : List ScanItem) (servings : ℕ) (_t : String) : Recipe :=
  { title := "Sautéed " ++ firstLabelOr ingredients "Ingredient" ++ " Stir-Fry"
    servings := servings
    estimated_time := some "20 minutes"
    tags := ["cooked", "sautéed", "warm", "20-min"]
    ingredients := templateIngredients ingredients
    steps :=
      ["Heat 2 tablespoons oil in a large pan or wok over medium-high heat",
       "Add harder ingredients first (like potatoes, carrots) if present",
       "Cook for 3-5 minutes until starting to soften",
       "Add softer ingredients (like leafy greens, tomatoes)",
       "Stir-fry for 2-3 minutes until heated through but still crisp",
       "Season with salt, pepper, and your favorite spices",
       "Add a splash of soy sauce or lemon juice for extra flavor",
       "Serve hot as a side dish or main course"]
    substitutions :=
      ["Use butter instead of oil for richer flavor",
       "Add garlic and ginger for extra aroma",
       "Include your favorite herbs and spices"]
    warnings :=
      ["Don\x27t overcook vegetables to maintain nutrients and texture",
       "Cook to safe internal temperatures for any meat or eggs"] }

def generateBakedRecipe (ingredients : List ScanItem) (servings : ℕ) (_t : String) : Recipe :=
  { title := "Roasted " ++ firstLabelOr ingredients "Ingredient" ++ " Medley"
    servings := servings
    estimated_time := some "35 minutes"
    tags := ["baked", "roasted", "warm", "35-min"]
    ingredients := templateIngredients ingredients
    steps :=
      ["Preheat oven to 400°F (200°C)",
       "Wash and cut ingredients into uniform pieces",
       "Toss with 2-3 tablespoons olive oil in a large bowl",
       "Season generously with salt, pepper, and herbs",
       "Arrange in a single layer on a large baking sheet",
       "Roast for 20-25 minutes, flipping halfway through",
       "Cook until tender and lightly golden brown",
       "Serve hot as a side dish or light meal"]
    substitutions :=
      ["Add herbs like rosemary, thyme, or oregano",
       "Drizzle with balsamic vinegar before serving",
       "Top with grated cheese in the last 5 minutes"]
    warnings :=
      ["Don\x27t overcrowd the baking sheet for even cooking",
       "Check for doneness with a fork - should be tender"] }

/-- `mainIngredients.map(i => i.label.toLowerCase())`: JS throws a
`TypeError` when an item has no `label`, modelled as `none`. -/
def lowerLabels : List ScanItem → Option (List String)
  | [] => some []
  | i :: rest =>
    match i.label with
    | none => none
    | some l =>
      match lowerLabels rest with
      | none => none
      | some ls => some (jsToLower l :: ls)

/-- `generateMultipleMockRecipes` from `RecipeScreen`; `none` models the
thrown `TypeError` on an unlabeled ingredient. -/
def generateMultipleMockRecipes (ingredients : List ScanItem) (servings : ℕ) :
    Option (List Recipe) :=
  let mainIngredients := ingredients.filter fun i =>
    !(i.label == some "food") && !(i.label == some "produce")
  let _primaryIngredient := firstLabelOr mainIngredients "food"
  match lowerLabels mainIngredients with
  | none => none
  | some ingredientNames =>
    if ingredientNames.contains "paneer" && ingredientNames.contains "spinach" then
      some [generatePalakPaneerRecipe ingredients servings,
            generatePaneerSpinachSaladRecipe ingredients servings,
            generateSpinachPaneerCurryRecipe ingredients servings]
    else
      some [generateFreshRecipe ingredients servings "fresh",
            generateCookedRecipe ingredients servings "cooked",
            generateBakedRecipe ingredients servings "baked"]

/-- A concrete confirmed paneer-and-spinach scan, used to evaluate the
mock-recipe generator. -/
def paneerSpinachExample : List ScanItem :=
  [{ label := some "paneer", fdc_id := some "m1", confidence := some 1,
     grams := some 200, grams_est := some 200, confirmed := true,
     manually_added := false },
   { label := some "spinach", fdc_id := some "m2", confidence := some 1,
     grams := some 100, grams_est := some 100, confirmed := true,
     manually_added := false }]

/-! ## Helper lemmas -/

theorem jsIncludes_self (s : String) : jsIncludes s s = true := by
  simp only [jsIncludes, decide_eq_true_eq]
  exact ⟨[], [], by simp⟩

theorem jsIncludes_empty_sub (s : String) : jsIncludes s "" = true := by
  simp only [jsIncludes, decide_eq_true_eq]
  have h : ("" : String).toList = [] := rfl
  rw [h]
  exact ⟨[], s.toList, by simp⟩

theorem isFruitLabel_of_mem {l : String} (h : l ∈ COMMON_FRUITS) : isFruitLabel l = true := by
  unfold isFruitLabel
  apply List.any_eq_true.mpr
  exact ⟨l, h, by simp [jsIncludes_self]⟩

theorem isFruitLabel_empty : isFruitLabel "" = true := by
  unfold isFruitLabel
  apply List.any_eq_true.mpr
  exact ⟨"orange", by simp [COMMON_FRUITS], by simp [jsIncludes_empty_sub]⟩

theorem updateItemGrams_preserves (parsed : Option ℚ) :
    ∀ (items : List ScanItem) (idx : ℕ),
      (∀ i ∈ items, itemHasGramsValue i = true) →
      ∀ j ∈ updateItemGrams items idx parsed, itemHasGramsValue j = true := by
  intro items
  induction items with
  | nil => intro idx h j hj; cases hj
  | cons i rest ih =>
    intro idx h j hj
    cases idx with
    | zero =>
      simp only [updateItemGrams] at hj
      rcases List.mem_cons.mp hj with hj | hj
      · subst hj
        simp only [itemHasGramsValue, jsNumOr]
        split <;> simp
      · exact h j (List.mem_cons_of_mem i hj)
    | succ n =>
      simp only [updateItemGrams] at hj
      rcases List.mem_cons.mp hj with hj | hj
      · subst hj
        exact h j (List.mem_cons_self j rest)
      · exact ih n (fun x hx => h x (List.mem_cons_of_mem i hx)) j hj

theorem lowerLabels_total (l : List ScanItem) (h : ∀ i ∈ l, i.label ≠ none) :
    ∃ ns, lowerLabels l = some ns := by
  induction l with
  | nil => exact ⟨[], rfl⟩
  | cons i rest ih =>
    obtain ⟨ns, hns⟩ := ih (fun x hx => h x (List.mem_cons_of_mem i hx))
    cases hi : i.label with
    | none => exact absurd hi (h i (List.mem_cons_self i rest))
    | some s => exact ⟨jsToLower s :: ns, by simp [lowerLabels, hi, hns]⟩

theorem detectFruits_all_counted (l : List ScanItem) (hne : l ≠ [])
    (h : ∀ i ∈ l, countedAsFruit i = true) : detectFruits l = true := by
  have hlen : l.length ≠ 0 := by simpa [List.length_eq_zero] using hne
  unfold detectFruits
  rw [if_neg hlen, List.filter_eq_self.mpr h]
  simp only [decide_eq_true_eq]
  omega

/-! ## Claim theorems -/

/-- C2: for every non-empty ingredient list whose labels are fruits,
`getRecipeCategories` returns `isFruitBased = true` with
`suggestedCategories = ["smoothie", "dessert"]` and default smoothie,
and the recipe-type chips of the confirm screen (and the category selector)
offer Smoothie/Dessert instead of the cuisine options. -/
theorem C2_fruit_labels_give_smoothie_dessert :
    ∀ items : List ScanItem, items ≠ [] →
      (∀ i ∈ items, effLabel i ∈ COMMON_FRUITS) →
      getRecipeCategories items =
        { isFruitBased := true, suggestedCategories := ["smoothie", "dessert"],
          defaultCategory := "smoothie" }
      ∧ confirmScreenRecipeTypeOptions (detectFruits items) = ["Smoothie", "Dessert"]
      ∧ recipeCategorySelectorIds (detectFruits items) = ["smoothie", "dessert"] := by
  intro items hne h
  have hd : detectFruits items = true := by
    apply detectFruits_all_counted items hne
    intro i hi
    unfold countedAsFruit
    rw [isFruitLabel_of_mem (h i hi)]
    simp
  exact ⟨by simp [getRecipeCategories, hd],
         by simp [confirmScreenRecipeTypeOptions, hd],
         by simp [recipeCategorySelectorIds, hd]⟩

theorem C2_fruit_labels_give_smoothie_dessert_witness :
    getRecipeCategories
        [{ label := some "banana", fdc_id := none, confidence := none, grams := none,
           grams_est := none, confirmed := true, manually_added := false },
         { label := some "Apple", fdc_id := none, confidence := none, grams := none,
           grams_est := none, confirmed := false, manually_added := false }] =
      { isFruitBased := true, suggestedCategories := ["smoothie", "dessert"],
        defaultCategory := "smoothie" } :=
  (C2_fruit_labels_give_smoothie_dessert _ (by decide) (by decide)).1

/-- C8: an ingredient with an absent, null or empty label counts as a
fruit under the two-way `includes` test, so every non-empty list of
unlabeled ingredients is classified fruit-based, while an empty or
missing list is not. -/
theorem C8_unlabeled_counts_as_fruit :
    (∀ items : List ScanItem, items ≠ [] →
      (∀ i ∈ items, i.label = none ∨ i.label = some "") →
      detectFruits items = true)
    ∧ detectFruits [] = false
    ∧ detectFruitsJS none = false := by
  refine ⟨?_, rfl, rfl⟩
  intro items hne h
  apply detectFruits_all_counted items hne
  intro i hi
  have hl : effLabel i = "" := by
    rcases h i hi with h' | h' <;> simp [effLabel, h', jsStrOr, jsToLower]
  unfold countedAsFruit
  rw [hl, isFruitLabel_empty]
  simp

theorem C8_unlabeled_counts_as_fruit_witness :
    detectFruits
      [{ label := none, fdc_id := none, confidence := none, grams := none,
         grams_est := none, confirmed := false, manually_added := false },
       { label := some "", fdc_id := none, confidence := none, grams := none,
         grams_est := none, confirmed := false, manually_added := false }] = true :=
  C8_unlabeled_counts_as_fruit.1 _ (by decide) (by decide)

/-- C9: `suggestMealType` ignores its ingredients argument; the result is
determined by the hour alone (breakfast for 6-10, lunch for 11-15,
dinner for 16-20, snack otherwise). -/
theorem C9_suggestMealType_ignores_ingredients :
    (∀ (A B : List ScanItem) (h : ℕ), suggestMealType A h = suggestMealType B h)
    ∧ (∀ (ings : List ScanItem) (h : ℕ),
        (6 ≤ h ∧ h < 11 → suggestMealType ings h = "breakfast")
        ∧ (11 ≤ h ∧ h < 16 → suggestMealType ings h = "lunch")
        ∧ (16 ≤ h ∧ h < 21 → suggestMealType ings h = "dinner")
        ∧ (h < 6 ∨ 21 ≤ h → suggestMealType ings h = "snack")) := by
  constructor
  · intro A B h
    rfl
  · intro ings h
    refine ⟨?_, ?_, ?_, ?_⟩
    · intro hh
      unfold suggestMealType
      rw [if_pos hh]
    · intro hh
      unfold suggestMealType
      rw [if_neg (by omega), if_pos hh]
    · intro hh
      unfold suggestMealType
      rw [if_neg (by omega), if_neg (by omega), if_pos hh]
    · intro hh
      unfold suggestMealType
      rw [if_neg (by omega), if_neg (by omega), if_neg (by omega)]

theorem C9_suggestMealType_ignores_ingredients_witness :
    suggestMealType
        [{ label := some "banana", fdc_id := none, confidence := none, grams := none,
           grams_est := none, confirmed := true, manually_added := false }] 9 =
      suggestMealType [] 9
    ∧ suggestMealType [] 9 = "breakfast"
    ∧ suggestMealType [] 22 = "snack" :=
  ⟨C9_suggestMealType_ignores_ingredients.1 _ [] 9,
   (C9_suggestMealType_ignores_ingredients.2 [] 9).1 (by omega),
   (C9_suggestMealType_ignores_ingredients.2 [] 22).2.2.2 (by omega)⟩

/-- C1: if no item is confirmed, `handleConfirm` raises the error alert,
issues no confirm-scan API call, does not navigate to the Recipe screen,
and leaves the screen state unchanged. -/
theorem C1_zero_confirmed_ingredients_rejected :
    ∀ (scanId : String) (s : ConfirmScreenState) (confirmOk : Bool),
      (∀ i ∈ s.items, i.confirmed = false) →
      handleConfirm scanId s confirmOk =
        { alert := some ("Error", "Please confirm at least one ingredient"),
          apiConfirmCall := none, navigateToRecipe := none, finalState := s } := by
  intro scanId s ok h
  have hf : s.items.filter (fun i => i.confirmed) = [] :=
    List.filter_eq_nil_iff.mpr (by intro a ha; simp [h a ha])
  simp [handleConfirm, hf]

theorem C1_zero_confirmed_ingredients_rejected_witness :
    handleConfirm "scan-42"
        { loading := true,
          items := [{ label := some "tomato", fdc_id := some "11529", confidence := some 1,
                      grams := some 50, grams_est := some 50, confirmed := false,
                      manually_added := false }],
          servings := 2, selectedDiets := [], selectedAllergens := [],
          selectedMealType := "lunch", selectedRecipeType := "italian",
          selectedCookingLevel := "intermediate", isFruitDetected := false } true =
      { alert := some ("Error", "Please confirm at least one ingredient"),
        apiConfirmCall := none, navigateToRecipe := none,
        finalState :=
          { loading := true,
            items := [{ label := some "tomato", fdc_id := some "11529", confidence := some 1,
                        grams := some 50, grams_est := some 50, confirmed := false,
                        manually_added := false }],
            servings := 2, selectedDiets := [], selectedAllergens := [],
            selectedMealType := "lunch", selectedRecipeType := "italian",
            selectedCookingLevel := "intermediate", isFruitDetected := false } } :=
  C1_zero_confirmed_ingredients_rejected "scan-42" _ true (by decide)

/-- C3: the `scan_items_confirmed_requires_grams` check constraint means
a confirmed row has a non-null gram amount; every item the client puts
in a confirm-scan payload carries `confirmed = true` with a grams value,
given that each screen item has a usable gram amount — which every item
construction and edit path of the screen establishes. -/
theorem C3_confirmed_item_has_grams :
    (∀ r : ScanItemRow, scanItemsConfirmedRequiresGrams r = true →
      r.confirmed = true → r.grams ≠ none)
    ∧ (∀ items : List ScanItem, (∀ i ∈ items, itemHasGramsValue i = true) →
        ∀ p ∈ confirmationItems items, p.confirmed = true ∧ p.grams ≠ none)
    ∧ (∀ raw idx, itemHasGramsValue (normalizeItem raw idx) = true)
    ∧ (∀ name g now, itemHasGramsValue (addNewIngredientItem name g now) = true)
    ∧ itemHasGramsValue mockScanItem = true
    ∧ itemHasGramsValue fallbackScanItem = true
    ∧ (∀ items idx parsed, (∀ i ∈ items, itemHasGramsValue i = true) →
        ∀ j ∈ updateItemGrams items idx parsed, itemHasGramsValue j = true) := by
  refine ⟨?_, ?_, ?_, ?_, by decide, by decide, ?_⟩
  · intro r hck hc
    unfold scanItemsConfirmedRequiresGrams at hck
    rw [hc] at hck
    simp at hck
    simp [Option.ne_none_iff_isSome, hck]
  · intro items h p hp
    unfold confirmationItems at hp
    rw [List.mem_map] at hp
    obtain ⟨i, hi, rfl⟩ := hp
    have hig := h i (List.mem_filter.mp hi).1
    unfold itemHasGramsValue at hig
    exact ⟨rfl, by simp [Option.ne_none_iff_isSome, hig]⟩
  · intro raw idx
    simp only [itemHasGramsValue, normalizeItem, jsNumOr]
    split <;> simp
  · intro name g now
    simp only [itemHasGramsValue, addNewIngredientItem, jsNumOr]
    have hnf : numFalsy (some (jsNumOrD g 100)) = false := by
      simp only [numFalsy, decide_eq_false_iff_not]
      cases g with
      | none => simp only [jsNumOrD]; norm_num
      | some x =>
        simp only [jsNumOrD]
        by_cases hx : x = 0
        · rw [if_pos hx]; norm_num
        · rw [if_neg hx]; exact hx
    rw [hnf]
    simp
  · exact fun items idx parsed => updateItemGrams_preserves parsed items idx

theorem C3_confirmed_item_has_grams_witness :
    ((⟨7, "paneer", some 50, true⟩ : ScanItemRow).grams ≠ none)
    ∧ (∀ p ∈ confirmationItems
          [{ label := some "paneer", fdc_id := some "x1", confidence := some 1,
             grams := some 50, grams_est := some 50, confirmed := true,
             manually_added := false },
           { label := some "spinach", fdc_id := some "x2", confidence := some 1,
             grams := none, grams_est := some 100, confirmed := true,
             manually_added := false }],
        p.confirmed = true ∧ p.grams ≠ none) :=
  ⟨C3_confirmed_item_has_grams.1 _ (by decide) rfl,
   C3_confirmed_item_has_grams.2.1 _ (by decide)⟩

/-- C6: every REST endpoint sits behind the bearer-token gate: a request
without a valid bearer token is rejected with HTTP 401 and is never
forwarded to an operation; conversely an operation only runs for a
presented token that validates. -/
theorem C6_endpoints_require_bearer_auth :
    (∀ (validToken : String → Bool) (req : ApiRequest),
      (∀ t, req.bearerToken = some t → validToken t = false) →
      apiGateway validToken req = .rejected 401)
    ∧ (∀ (validToken : String → Bool) (req : ApiRequest) (e : Endpoint),
        apiGateway validToken req = .forwarded e →
        ∃ t, req.bearerToken = some t ∧ validToken t = true) := by
  constructor
  · intro v req h
    unfold apiGateway
    cases hb : req.bearerToken with
    | none => rfl
    | some t => simp [h t hb]
  · intro v req e h
    unfold apiGateway at h
    cases hb : req.bearerToken with
    | none => simp [hb] at h
    | some t =>
      rw [hb] at h
      by_cases hv : v t = true
      · exact ⟨t, rfl, hv⟩
      · simp [hv] at h

theorem C6_endpoints_require_bearer_auth_witness :
    apiGateway (fun _ => false) ⟨.presignUpload, none⟩ = .rejected 401
    ∧ apiGateway (fun _ => false) ⟨.getScan, some "expired-jwt"⟩ = .rejected 401 :=
  ⟨C6_endpoints_require_bearer_auth.1 _ _ (by simp),
   C6_endpoints_require_bearer_auth.1 _ _ (by simp)⟩

/-- C7: the database admits only the four scan statuses — any insert or
update that passes the check constraint preserves the table invariant —
the default status is one of them, and the `SCAN_STATUS` client
constants mirror the database enumeration exactly. -/
theorem C7_scan_status_enumeration :
    (∀ table r t, (∀ x ∈ table, scansStatusCheck x.status = true) →
      insertScan table r = some t → ∀ x ∈ t, scansStatusCheck x.status = true)
    ∧ (∀ table id0 st t, (∀ x ∈ table, scansStatusCheck x.status = true) →
        updateScanStatus table id0 st = some t →
        ∀ x ∈ t, scansStatusCheck x.status = true)
    ∧ (∀ s, scansStatusCheck s = true ↔ s ∈ scanStatusValues)
    ∧ [SCAN_STATUS.PROCESSING, SCAN_STATUS.READY, SCAN_STATUS.CONFIRMED,
       SCAN_STATUS.COMPLETED] = scanStatusValues
    ∧ scansStatusCheck scanStatusDefault = true := by
  refine ⟨?_, ?_, ?_, rfl, by decide⟩
  · intro table r t hinv hins x hx
    unfold insertScan at hins
    by_cases hr : scansStatusCheck r.status = true
    · rw [if_pos hr] at hins
      obtain rfl : table ++ [r] = t := by injection hins
      rcases List.mem_append.mp hx with hx | hx
      · exact hinv x hx
      · rw [List.mem_singleton.mp hx]; exact hr
    · rw [if_neg hr] at hins; cases hins
  · intro table id0 st t hinv hupd x hx
    unfold updateScanStatus at hupd
    by_cases hs : scansStatusCheck st = true
    · rw [if_pos hs] at hupd
      obtain rfl : table.map _ = t := by injection hupd
      obtain ⟨y, hy, rfl⟩ := List.mem_map.mp hx
      by_cases hid : y.id = id0
      · simp only [if_pos hid]; exact hs
      · simp only [if_neg hid]; exact hinv y hy
    · rw [if_neg hs] at hupd; cases hupd
  · intro s
    simp [scansStatusCheck]

theorem C7_scan_status_enumeration_witness :
    ∀ x ∈ [({ id := 1, user_id := 9, s3_key := "img/a.jpg",
              status := "processing" } : ScanRow),
           { id := 2, user_id := 9, s3_key := "img/b.jpg", status := "ready" }],
      scansStatusCheck x.status = true := by
  have h := C7_scan_status_enumeration.1
    [{ id := 1, user_id := 9, s3_key := "img/a.jpg", status := "processing" }]
    { id := 2, user_id := 9, s3_key := "img/b.jpg", status := "ready" }
    _ (by decide) rfl
  exact h

/-- C4 counterexample: a successful scan fetch with no items and status
`"processing"` makes `loadScanResults` schedule itself again after
2000 ms — the scan-result fetch does not execute at most once, so the
pipeline is not free of feedback loops. -/
theorem C4_counterexample_polling_self_reinvocation :
    loadScanResults "scan-1"
        { success := true, items := [], status := some "processing", error := none } [] =
      .retry 2000 := by
  rfl

/-- C4 (amended): the pipeline is linear except for two client feedback
loops: `loadScanResults` re-invokes itself (after 2000 ms) exactly when a
successful fetch of a non-mock scan returns no items with status
`"processing"`, and every recipe-generation failure alert offers an
action that re-invokes `generateRecipe`. -/
theorem C4_amended_linear_except_polling_and_retry :
    (∀ scanId result detectedItems,
      loadScanResults scanId result detectedItems = .retry 2000 ↔
        (isMockScanId scanId = false ∧ result.success = true ∧
         result.items = [] ∧ result.status = some "processing"))
    ∧ (∀ msg, AlertAction.retryGenerate ∈ (generateRecipeCatch msg).actions) := by
  constructor
  · intro scanId result detectedItems
    unfold loadScanResults
    cases hm : isMockScanId scanId with
    | true => simp
    | false =>
      cases hs : result.success with
      | false =>
        by_cases hd : detectedItems.length > 0 <;> simp [hd]
      | true =>
        cases hi : result.items with
        | cons a l => simp
        | nil =>
          simp only [List.length_nil, gt_iff_lt, lt_self_iff_false, if_false]
          by_cases hst : result.status = some "processing"
          · simp [hst]
          · simp [hst]
  · intro msg
    simp only [generateRecipeCatch]
    split
    · simp
    · split <;> simp

/-- C5 counterexample: a successful scan fetch with no items and a
non-processing status substitutes the placeholder item but raises no
alert, contrary to the claim that the fallback always comes with a
user-facing alert. -/
theorem C5_counterexample_silent_fallback :
    (loadScanResults "scan-1"
        { success := true, items := [], status := some "ready", error := none } []).itemsOf =
      some [fallbackScanItem]
    ∧ (loadScanResults "scan-1"
        { success := true, items := [], status := some "ready", error := none } []).alertOf =
      none := by
  exact ⟨rfl, rfl⟩

/-- C5 (amended): when the scan fetch fails and no detected items were
passed, `loadScanResults` substitutes the placeholder item and raises the
`Detection Failed` alert; when the fetch succeeds with no items and a
non-processing status it substitutes the placeholder silently; and every
failed recipe-generation alert offers a `Use Mock Recipe` action. -/
theorem C5_amended_fallback_on_failure :
    (∀ scanId result, isMockScanId scanId = false → result.success = false →
      loadScanResults scanId result [] =
        .finish [fallbackScanItem]
          (some ("Detection Failed",
            "Real AI detection failed: " ++ jsStrOr result.error "Unknown error" ++
            "\n\nUsing fallback detection for now.")) false)
    ∧ (∀ scanId result detectedItems, isMockScanId scanId = false →
        result.success = true → result.items = [] →
        result.status ≠ some "processing" →
        loadScanResults scanId result detectedItems = .finish [fallbackScanItem] none false)
    ∧ (∀ msg, AlertAction.useMockRecipe ∈ (generateRecipeCatch msg).actions) := by
  refine ⟨?_, ?_, ?_⟩
  · intro scanId result hm hs
    simp [loadScanResults, hm, hs]
  · intro scanId result detectedItems hm hs hi hst
    simp [loadScanResults, hm, hs, hi, hst]
  · intro msg
    simp only [generateRecipeCatch]
    split
    · simp
    · split <;> simp

theorem C5_amended_fallback_on_failure_witness :
    loadScanResults "scan-1"
        { success := false, items := [], status := none, error := some "HTTP error! status: 500" } [] =
      .finish [fallbackScanItem]
        (some ("Detection Failed",
          "Real AI detection failed: HTTP error! status: 500\n\nUsing fallback detection for now."))
        false := by
  have h := C5_amended_fallback_on_failure.1 "scan-1"
    { success := false, items := [], status := none, error := some "HTTP error! status: 500" }
    (by decide) rfl
  simpa [jsStrOr] using h

/-- C10 counterexample: on a non-empty ingredient list containing an
item without a label, `generateMultipleMockRecipes` throws
(`i.label.toLowerCase()` on `undefined`) instead of returning three
recipes. -/
theorem C10_counterexample_unlabeled_ingredient :
    generateMultipleMockRecipes
        [{ label := none, fdc_id := none, confidence := none, grams := none,
           grams_est := none, confirmed := true, manually_added := false }] 2 = none := by
  rfl

/-- C10 (amended): for every non-empty ingredient list in which every
item carries a label, `generateMultipleMockRecipes` returns exactly
three recipes — the Palak Paneer / Paneer Spinach Salad / Spinach Paneer
Curry trio in the paneer-plus-spinach case, and the fresh / cooked /
baked variants otherwise. -/
theorem C10_amended_three_mock_recipes :
    ∀ (ingredients : List ScanItem) (servings : ℕ),
      ingredients ≠ [] → (∀ i ∈ ingredients, i.label ≠ none) →
      ∃ rs, generateMultipleMockRecipes ingredients servings = some rs ∧
        rs.length = 3 ∧
        (rs = [generatePalakPaneerRecipe ingredients servings,
               generatePaneerSpinachSaladRecipe ingredients servings,
               generateSpinachPaneerCurryRecipe ingredients servings] ∨
         rs = [generateFreshRecipe ingredients servings "fresh",
               generateCookedRecipe ingredients servings "cooked",
               generateBakedRecipe ingredients servings "baked"]) := by
  intro ingredients servings _hne hl
  have hml : ∀ i ∈ ingredients.filter
      (fun i => !(i.label == some "food") && !(i.label == some "produce")),
      i.label ≠ none := fun i hi => hl i (List.mem_filter.mp hi).1
  obtain ⟨ns, hns⟩ := lowerLabels_total _ hml
  simp only [generateMultipleMockRecipes]
  rw [hns]
  dsimp only
  by_cases hc : (ns.contains "paneer" && ns.contains "spinach") = true
  · rw [if_pos hc]
    exact ⟨_, rfl, rfl, .inl rfl⟩
  · rw [if_neg hc]
    exact ⟨_, rfl, rfl, .inr rfl⟩

theorem C10_amended_three_mock_recipes_witness :
    ∃ rs, generateMultipleMockRecipes paneerSpinachExample 2 = some rs ∧
      rs.length = 3 ∧
      (rs = [generatePalakPaneerRecipe paneerSpinachExample 2,
             generatePaneerSpinachSaladRecipe paneerSpinachExample 2,
             generateSpinachPaneerCurryRecipe paneerSpinachExample 2] ∨
       rs = [generateFreshRecipe paneerSpinachExample 2 "fresh",
             generateCookedRecipe paneerSpinachExample 2 "cooked",
             generateBakedRecipe paneerSpinachExample 2 "baked"]) :=
  C10_amended_three_mock_recipes paneerSpinachExample 2 (by decide) (by decide)

end AyeAye
